import Mathlib

/-!
Shallow embedding of the command compiler of `agent-browser` (files
`cli/src/commands.rs` and `cli/src/flags.rs`).

Modelling conventions:
* Rust `&[String]` slices become `List String`; `slice.get(i)` becomes `l[i]?`.
* Rust's panicking operations (`&rest[i..]` range slicing, `Option::unwrap`)
  are modelled by fallible helpers in an `Except String` layer, so that the
  absence of panics is a provable statement (`parse_command` never returns
  `.error _`).  The Rust `?` early return of `parse_command` (which returns
  `Option<Value>`) is the `Option` layer inside the `Except`.
* `serde_json` messages become the closed inductive `Payload`; an optional
  JSON field (serialized as `null` when absent) becomes `Option _`.
* The fresh id produced by `gen_id` (a time-derived string) is an opaque
  input: `parse_command_msg` takes it as a parameter and attaches it,
  mirroring that the id is generated once before dispatch and used only as
  the `id` field of the emitted message.
* Rust `str::parse::<i32>` / `::<u64>` are modelled by `parseI32` /
  `parseU64` (optional sign, decimal digits, range check).
  `str::parse::<f64>` is modelled by `parseF64` into exact rational /
  infinity / NaN values; IEEE rounding of the decimal value is not modelled
  (no claim depends on the numeric value of a float).
-/

/-- Digits of a decimal literal folded to a natural number
(the accumulator loop of Rust's integer `FromStr`). -/
def digitsVal (cs : List Char) : Nat :=
  cs.foldl (fun a c => a * 10 + (c.toNat - 48)) 0

/-- All characters are ASCII digits and there is at least one. -/
def allDigits (cs : List Char) : Bool :=
  !cs.isEmpty && cs.all Char.isDigit

/-- Rust `str::parse::<i32>`: optional `+`/`-` sign, one or more ASCII
digits, value within the `i32` range; anything else is `Err`. -/
def parseI32 (s : String) : Option Int :=
  let (neg, cs) :=
    match s.toList with
    | '+' :: t => (false, t)
    | '-' :: t => (true, t)
    | t => (false, t)
  if allDigits cs then
    let v : Int := if neg then -(digitsVal cs : Int) else (digitsVal cs : Int)
    if -(2 ^ 31) ≤ v ∧ v ≤ 2 ^ 31 - 1 then some v else none
  else none

/-- Rust `str::parse::<u64>`: optional `+` sign, one or more ASCII digits,
value within the `u64` range. -/
def parseU64 (s : String) : Option Nat :=
  let cs :=
    match s.toList with
    | '+' :: t => t
    | t => t
  if allDigits cs then
    let v := digitsVal cs
    if v < 2 ^ 64 then some v else none
  else none

/-- Value of a parsed `f64` literal, before IEEE rounding (which no claim
inspects): an exact rational, a signed infinity, or NaN. -/
inductive F64 where
  | finite (q : ℚ)
  | inf (neg : Bool)
  | nan
deriving DecidableEq, Repr

/-- Rust `str::parse::<f64>`: optional sign; then `inf`/`infinity`/`nan`
(case-insensitive) or a decimal mantissa with at least one digit and an
optional `e`/`E` exponent. -/
def parseF64 (s : String) : Option F64 :=
  let (neg, cs) :=
    match s.toList with
    | '+' :: t => (false, t)
    | '-' :: t => (true, t)
    | t => (false, t)
  let lower := cs.map Char.toLower
  if lower = ['i', 'n', 'f'] ∨ lower = "infinity".toList then some (.inf neg)
  else if lower = ['n', 'a', 'n'] then some F64.nan
  else
    let ip := cs.takeWhile Char.isDigit
    let r1 := cs.dropWhile Char.isDigit
    let (fp, r2) :=
      match r1 with
      | '.' :: t => (t.takeWhile Char.isDigit, t.dropWhile Char.isDigit)
      | _ => ([], r1)
    if ip.isEmpty && fp.isEmpty then none
    else
      let mant : ℚ := (digitsVal ip : ℚ) + (digitsVal fp : ℚ) / ((10 : ℚ) ^ fp.length)
      let signed := if neg then -mant else mant
      match r2 with
      | [] => some (.finite signed)
      | e :: t =>
        if e = 'e' ∨ e = 'E' then
          let (eneg, t2) :=
            match t with
            | '+' :: u => (false, u)
            | '-' :: u => (true, u)
            | u => (false, u)
          if allDigits t2 then
            let ev : ℤ := if eneg then -(digitsVal t2 : Int) else (digitsVal t2 : Int)
            some (.finite (signed * (10 : ℚ) ^ ev))
          else none
        else none

/-- Rust `str::starts_with(p)`: the characters of `p` are a prefix of the
characters of `s` (for UTF-8 strings, byte-prefix and character-prefix
agree). -/
def startsWithS (s p : String) : Bool := p.toList.isPrefixOf s.toList

/-- Rust `[&str]::join(" ")`. -/
def joinSp (l : List String) : String := String.intercalate " " l

/-- Rust range slicing `&l[i..]`, which panics when `i > l.len()`; the
panic is the `.error` outcome. -/
def sliceFrom (l : List String) (i : Nat) : Except String (List String) :=
  if i ≤ l.length then .ok (l.drop i) else .error "slice index out of range"

/-- Rust `Option::unwrap`, which panics on `None`. -/
def unwrapE {α : Type} (o : Option α) : Except String α :=
  match o with
  | some a => .ok a
  | none => .error "called unwrap on a None value"

/-- The command message payload: the closed union of every `json!` object
built by `parse_command` / `parse_find` / `parse_set`, minus the `id`
field (attached separately, see `Msg`).  One constructor per distinct
object shape, named after the `action` tag. -/
inductive Payload where
  | navigate (url : String)
  | back
  | forward
  | reload
  | click (selector : String)
  | dblclick (selector : String)
  | fill (selector : String) (value : String)
  | type (selector : String) (text : String)
  | hover (selector : String)
  | focus (selector : String)
  | check (selector : String)
  | uncheck (selector : String)
  | select (selector : String) (value : String)
  | drag (source : String) (target : String)
  | upload (selector : String) (files : List String)
  | press (key : String)
  | keydown (key : String)
  | keyup (key : String)
  | scroll (direction : String) (amount : Int)
  | scrollintoview (selector : String)
  | waitTimeout (timeout : Nat)
  | waitSelector (selector : String)
  | screenshot (path : Option String) (fullPage : Bool)
  | pdf (path : String)
  | snapshot (interactive : Option Bool) (compact : Option Bool)
      (maxDepth : Option Int) (selector : Option String)
  | evaluate (script : String)
  | close
  | gettext (selector : String)
  | innerhtml (selector : String)
  | inputvalue (selector : String)
  | getattribute (selector : String) (attr : String)
  | url
  | title
  | count (selector : String)
  | boundingbox (selector : String)
  | isvisible (selector : String)
  | isenabled (selector : String)
  | ischecked (selector : String)
  | getbyrole (role : String) (subaction : String) (value : Option String)
      (name : Option String) (exact : Bool)
  | getbytext (text : String) (subaction : String) (exact : Bool)
  | getbylabel (label : String) (subaction : String) (value : Option String) (exact : Bool)
  | getbyplaceholder (placeholder : String) (subaction : String)
      (value : Option String) (exact : Bool)
  | getbyalttext (text : String) (subaction : String) (exact : Bool)
  | getbytitle (text : String) (subaction : String) (exact : Bool)
  | getbytestid (testId : String) (subaction : String) (value : Option String)
  | nth (selector : String) (index : Int) (subaction : String) (value : Option String)
  | mousemove (x : Int) (y : Int)
  | mousedown (button : String)
  | mouseup (button : String)
  | mousewheel (deltaX : Int) (deltaY : Int)
  | viewport (width : Int) (height : Int)
  | device (device : String)
  | geolocation (latitude : F64) (longitude : F64)
  | offline (offline : Bool)
  | headers (headers : String)
  | credentials (username : String) (password : String)
  | media (colorScheme : String) (reducedMotion : Bool)
  | route (url : String) (abort : Bool) (body : Option String)
  | unroute (url : Option String)
  | requests (clear : Bool) (filter : Option String)
  | storage (storageType : String) (operation : String)
      (key : Option String) (value : Option String)
  | cookiesGet (name : Option String)
  | cookiesSet (name : String) (value : String)
  | cookiesClear
  | cookiesGetBare
  | tabNew (url : Option String)
  | tabList
  | tabClose (index : Option Int)
  | tabSwitch (index : Int)
  | windowNew
  | frameMain
  | frame (selector : String)
  | dialogAccept (promptText : Option String)
  | dialogDismiss
  | traceStart (path : Option String)
  | traceStop (path : Option String)
  | console (clear : Bool)
  | errors (clear : Bool)
  | highlight (selector : String)
  | stateSave (path : String)
  | stateLoad (path : String)
deriving Repr

/-- A full command message: the fresh correlation id plus the payload. -/
structure Msg where
  id : String
  payload : Payload
deriving Repr

/-- The global options record of `flags.rs` (`pub struct Flags`). -/
structure Flags where
  json : Bool
  full : Bool
  headed : Bool
  debug : Bool
  session : String
deriving DecidableEq, Repr

/-- The `Flags` value produced by `parse_flags` on an empty argument list
with no `AGENT_BROWSER_SESSION` environment variable. -/
def defaultFlags : Flags :=
  { json := false, full := false, headed := false, debug := false, session := "default" }

/-- State of the `snapshot` flag-scanning loop: the four optional fields
inserted into the snapshot object (insertion of a flag stores `some`). -/
structure SnapOpts where
  interactive : Option Bool
  compact : Option Bool
  maxDepth : Option Int
  selector : Option String
deriving DecidableEq, Repr

/-- The `while i < rest.len()` scan of the `"snapshot"` arm: `-d`/`--depth`
consumes the following token only when it parses as an `i32` (otherwise
that token is scanned on the next iteration), `-s`/`--selector` consumes
the following token unconditionally, unrecognized tokens are skipped. -/
def snapshotScan : List String → SnapOpts → SnapOpts
  | [], st => st
  | t :: ts, st =>
    match t with
    | "-i" | "--interactive" => snapshotScan ts { st with interactive := some true }
    | "-c" | "--compact" => snapshotScan ts { st with compact := some true }
    | "-d" | "--depth" =>
      match ts with
      | [] => st
      | d :: ts2 =>
        match parseI32 d with
        | some n => snapshotScan ts2 { st with maxDepth := some n }
        | none => snapshotScan (d :: ts2) st
    | "-s" | "--selector" =>
      match ts with
      | [] => st
      | s :: ts2 => snapshotScan ts2 { st with selector := some s }
    | _ => snapshotScan ts st

/-- `fn parse_find(rest: &[&str], id: &str) -> Option<Value>` of
`commands.rs`, with the id factored out (see `Msg`). -/
def parse_find (rest : List String) : Except String (Option Payload) :=
  match rest[0]? with
  | none => .ok none
  | some locator =>
    match rest[1]? with
    | none => .ok none
    | some value =>
      let subaction := (rest[2]?).getD "click"
      (if 3 < rest.length then (sliceFrom rest 3).map (fun t => some (joinSp t))
       else .ok none).bind fun fill_value =>
        let name := (rest.findIdx? (· == "--name")).bind fun i => rest[i + 1]?
        let exact := rest.contains "--exact"
        match locator with
        | "role" => .ok (some (.getbyrole value subaction fill_value name exact))
        | "text" => .ok (some (.getbytext value subaction exact))
        | "label" => .ok (some (.getbylabel value subaction fill_value exact))
        | "placeholder" => .ok (some (.getbyplaceholder value subaction fill_value exact))
        | "alt" => .ok (some (.getbyalttext value subaction exact))
        | "title" => .ok (some (.getbytitle value subaction exact))
        | "testid" => .ok (some (.getbytestid value subaction fill_value))
        | "first" => .ok (some (.nth value 0 subaction fill_value))
        | "last" => .ok (some (.nth value (-1) subaction fill_value))
        | "nth" =>
          match parseI32 value with
          | none => .ok none
          | some idx =>
            match rest[2]? with
            | none => .ok none
            | some sel =>
              let sub := (rest[3]?).getD "click"
              (if 4 < rest.length then (sliceFrom rest 4).map (fun t => some (joinSp t))
               else .ok none).map fun fv => some (.nth sel idx sub fv)
        | _ => .ok none

/-- `fn parse_set(rest: &[&str], id: &str) -> Option<Value>` of
`commands.rs`, with the id factored out. -/
def parse_set (rest : List String) : Except String (Option Payload) :=
  match rest[0]? with
  | some "viewport" =>
    match (rest[1]?).bind parseI32, (rest[2]?).bind parseI32 with
    | some w, some h => .ok (some (.viewport w h))
    | _, _ => .ok none
  | some "device" =>
    match rest[1]? with
    | some d => .ok (some (.device d))
    | none => .ok none
  | some "geo" | some "geolocation" =>
    match (rest[1]?).bind parseF64, (rest[2]?).bind parseF64 with
    | some lat, some lng => .ok (some (.geolocation lat lng))
    | _, _ => .ok none
  | some "offline" =>
    let off := ((rest[1]?).map fun s => !(s == "off") && !(s == "false")).getD true
    .ok (some (.offline off))
  | some "headers" =>
    match rest[1]? with
    | some h => .ok (some (.headers h))
    | none => .ok none
  | some "credentials" | some "auth" =>
    match rest[1]?, rest[2]? with
    | some u, some p => .ok (some (.credentials u p))
    | _, _ => .ok none
  | some "media" =>
    let color := if rest.contains "dark" then "dark"
      else if rest.contains "light" then "light"
      else "no-preference"
    .ok (some (.media color (rest.contains "reduced-motion")))
  | _ => .ok none

/-- `fn parse_command(args: &[String], flags: &Flags) -> Option<Value>` of
`commands.rs`, with the id factored out (see `parse_command_msg`).
`.ok none` is the "no match" outcome; `.error _` would be a panic. -/
def parse_command (args : List String) (fl : Flags) : Except String (Option Payload) :=
  match args with
  | [] => .ok none
  | cmd :: rest =>
    match cmd with
    | "open" | "goto" | "navigate" =>
      match rest[0]? with
      | none => .ok none
      | some url =>
        .ok (some (.navigate (if startsWithS url "http" then url else "https://" ++ url)))
    | "back" => .ok (some .back)
    | "forward" => .ok (some .forward)
    | "reload" => .ok (some .reload)
    | "click" =>
      match rest[0]? with
      | some s => .ok (some (.click s))
      | none => .ok none
    | "dblclick" =>
      match rest[0]? with
      | some s => .ok (some (.dblclick s))
      | none => .ok none
    | "fill" =>
      match rest[0]? with
      | some s => (sliceFrom rest 1).map fun t => some (.fill s (joinSp t))
      | none => .ok none
    | "type" =>
      match rest[0]? with
      | some s => (sliceFrom rest 1).map fun t => some (.type s (joinSp t))
      | none => .ok none
    | "hover" =>
      match rest[0]? with
      | some s => .ok (some (.hover s))
      | none => .ok none
    | "focus" =>
      match rest[0]? with
      | some s => .ok (some (.focus s))
      | none => .ok none
    | "check" =>
      match rest[0]? with
      | some s => .ok (some (.check s))
      | none => .ok none
    | "uncheck" =>
      match rest[0]? with
      | some s => .ok (some (.uncheck s))
      | none => .ok none
    | "select" =>
      match rest[0]?, rest[1]? with
      | some s, some v => .ok (some (.select s v))
      | _, _ => .ok none
    | "drag" =>
      match rest[0]?, rest[1]? with
      | some s, some t => .ok (some (.drag s t))
      | _, _ => .ok none
    | "upload" =>
      match rest[0]? with
      | some s => (sliceFrom rest 1).map fun t => some (.upload s t)
      | none => .ok none
    | "press" | "key" =>
      match rest[0]? with
      | some k => .ok (some (.press k))
      | none => .ok none
    | "keydown" =>
      match rest[0]? with
      | some k => .ok (some (.keydown k))
      | none => .ok none
    | "keyup" =>
      match rest[0]? with
      | some k => .ok (some (.keyup k))
      | none => .ok none
    | "scroll" =>
      .ok (some (.scroll ((rest[0]?).getD "down") (((rest[1]?).bind parseI32).getD 300)))
    | "scrollintoview" | "scrollinto" =>
      match rest[0]? with
      | some s => .ok (some (.scrollintoview s))
      | none => .ok none
    | "wait" =>
      match rest[0]? with
      | none => .ok none
      | some arg =>
        if (parseU64 arg).isSome then
          (unwrapE (parseU64 arg)).map fun n => some (.waitTimeout n)
        else .ok (some (.waitSelector arg))
    | "screenshot" => .ok (some (.screenshot (rest[0]?) fl.full))
    | "pdf" =>
      match rest[0]? with
      | some p => .ok (some (.pdf p))
      | none => .ok none
    | "snapshot" =>
      let st := snapshotScan rest ⟨none, none, none, none⟩
      .ok (some (.snapshot st.interactive st.compact st.maxDepth st.selector))
    | "eval" => .ok (some (.evaluate (joinSp rest)))
    | "close" | "quit" | "exit" => .ok (some .close)
    | "get" =>
      match rest[0]? with
      | some "text" =>
        match rest[1]? with
        | some s => .ok (some (.gettext s))
        | none => .ok none
      | some "html" =>
        match rest[1]? with
        | some s => .ok (some (.innerhtml s))
        | none => .ok none
      | some "value" =>
        match rest[1]? with
        | some s => .ok (some (.inputvalue s))
        | none => .ok none
      | some "attr" =>
        match rest[1]?, rest[2]? with
        | some s, some a => .ok (some (.getattribute s a))
        | _, _ => .ok none
      | some "url" => .ok (some .url)
      | some "title" => .ok (some .title)
      | some "count" =>
        match rest[1]? with
        | some s => .ok (some (.count s))
        | none => .ok none
      | some "box" =>
        match rest[1]? with
        | some s => .ok (some (.boundingbox s))
        | none => .ok none
      | _ => .ok none
    | "is" =>
      match rest[0]? with
      | some "visible" =>
        match rest[1]? with
        | some s => .ok (some (.isvisible s))
        | none => .ok none
      | some "enabled" =>
        match rest[1]? with
        | some s => .ok (some (.isenabled s))
        | none => .ok none
      | some "checked" =>
        match rest[1]? with
        | some s => .ok (some (.ischecked s))
        | none => .ok none
      | _ => .ok none
    | "find" => parse_find rest
    | "mouse" =>
      match rest[0]? with
      | some "move" =>
        match (rest[1]?).bind parseI32, (rest[2]?).bind parseI32 with
        | some x, some y => .ok (some (.mousemove x y))
        | _, _ => .ok none
      | some "down" => .ok (some (.mousedown ((rest[1]?).getD "left")))
      | some "up" => .ok (some (.mouseup ((rest[1]?).getD "left")))
      | some "wheel" =>
        .ok (some (.mousewheel (((rest[2]?).bind parseI32).getD 0)
          (((rest[1]?).bind parseI32).getD 100)))
      | _ => .ok none
    | "set" => parse_set rest
    | "network" =>
      match rest[0]? with
      | some "route" =>
        match rest[1]? with
        | none => .ok none
        | some u =>
          .ok (some (.route u (rest.contains "--abort")
            ((rest.findIdx? (· == "--body")).bind fun i => rest[i + 1]?)))
      | some "unroute" => .ok (some (.unroute (rest[1]?)))
      | some "requests" =>
        .ok (some (.requests (rest.contains "--clear")
          ((rest.findIdx? (· == "--filter")).bind fun i => rest[i + 1]?)))
      | _ => .ok none
    | "storage" =>
      match rest[0]? with
      | some st =>
        if st = "local" ∨ st = "session" then
          .ok (some (.storage st ((rest[1]?).getD "get") (rest[2]?) (rest[3]?)))
        else .ok none
      | none => .ok none
    | "cookies" =>
      match (rest[0]?).getD "get" with
      | "get" => .ok (some (.cookiesGet (rest[1]?)))
      | "set" =>
        match rest[1]?, rest[2]? with
        | some n, some v => .ok (some (.cookiesSet n v))
        | _, _ => .ok none
      | "clear" => .ok (some .cookiesClear)
      | _ => .ok (some .cookiesGetBare)
    | "tab" =>
      match rest[0]? with
      | some "new" => .ok (some (.tabNew (rest[1]?)))
      | some "list" => .ok (some .tabList)
      | some "close" => .ok (some (.tabClose ((rest[1]?).bind parseI32)))
      | some n =>
        if (parseI32 n).isSome then
          (unwrapE (parseI32 n)).map fun k => some (.tabSwitch k)
        else .ok (some .tabList)
      | none => .ok (some .tabList)
    | "window" =>
      match rest[0]? with
      | some "new" => .ok (some .windowNew)
      | _ => .ok none
    | "frame" =>
      match rest[0]? with
      | some "main" => .ok (some .frameMain)
      | some s => .ok (some (.frame s))
      | none => .ok none
    | "dialog" =>
      match rest[0]? with
      | some "accept" => .ok (some (.dialogAccept (rest[1]?)))
      | some "dismiss" => .ok (some .dialogDismiss)
      | _ => .ok none
    | "trace" =>
      match rest[0]? with
      | some "start" => .ok (some (.traceStart (rest[1]?)))
      | some "stop" => .ok (some (.traceStop (rest[1]?)))
      | _ => .ok none
    | "console" => .ok (some (.console (rest.contains "--clear")))
    | "errors" => .ok (some (.errors (rest.contains "--clear")))
    | "highlight" =>
      match rest[0]? with
      | some s => .ok (some (.highlight s))
      | none => .ok none
    | "state" =>
      match rest[0]? with
      | some "save" =>
        match rest[1]? with
        | some p => .ok (some (.stateSave p))
        | none => .ok none
      | some "load" =>
        match rest[1]? with
        | some p => .ok (some (.stateLoad p))
        | none => .ok none
      | _ => .ok none
    | _ => .ok none

/-- The full compiler including the id: the source generates a fresh
time-derived id with `gen_id()` before dispatch and attaches it as the
`id` field of whichever message is produced; the id is threaded here as
an opaque parameter. -/
def parse_command_msg (id : String) (args : List String) (fl : Flags) :
    Except String (Option Msg) :=
  (parse_command args fl).map (Option.map fun p => { id := id, payload := p })

/-- The loop body of `clean_args` in `flags.rs`, with the `skip_next`
mutable flag made an explicit argument. -/
def cleanGo : Bool → List String → List String
  | _, [] => []
  | true, _ :: as => cleanGo false as
  | false, a :: as =>
    if a = "--session" then cleanGo true as
    else if startsWithS a "--" then cleanGo false as
    else if a = "-f" then cleanGo false as
    else a :: cleanGo false as

/-- `fn clean_args(args: &[String]) -> Vec<String>` of `flags.rs`. -/
def clean_args (args : List String) : List String := cleanGo false args

/-- The value of the `skip_next` flag after `clean_args` has scanned the
given prefix, starting from the given flag value. -/
def skipAfter : Bool → List String → Bool
  | b, [] => b
  | true, _ :: as => skipAfter false as
  | false, a :: as =>
    if a = "--session" then skipAfter true as else skipAfter false as

/-- Modelled from the spec (for claim C3): the `find` sub-grammar cases in
which the spec predicts the no-match outcome.  `numFail` selects whether a
required integer argument that fails to parse counts as a no-match cause
(the amended reading) or not (the claim's literal four causes). -/
def noMatchFind (numFail : Bool) (rest : List String) : Bool :=
  match rest[0]?, rest[1]? with
  | some loc, some v =>
    match loc with
    | "role" | "text" | "label" | "placeholder" | "alt" | "title"
    | "testid" | "first" | "last" => false
    | "nth" => (numFail && (parseI32 v).isNone) || decide (rest.length < 3)
    | _ => true
  | _, _ => true

/-- Modelled from the spec (for claim C3): the `set` sub-grammar cases in
which the spec predicts the no-match outcome. -/
def noMatchSet (numFail : Bool) (rest : List String) : Bool :=
  match rest[0]? with
  | some "viewport" =>
    decide (rest.length < 3) ||
      (numFail && (((rest[1]?).bind parseI32).isNone || ((rest[2]?).bind parseI32).isNone))
  | some "device" => decide (rest.length < 2)
  | some "geo" | some "geolocation" =>
    decide (rest.length < 3) ||
      (numFail && (((rest[1]?).bind parseF64).isNone || ((rest[2]?).bind parseF64).isNone))
  | some "offline" => false
  | some "headers" => decide (rest.length < 2)
  | some "credentials" | some "auth" => decide (rest.length < 3)
  | some "media" => false
  | _ => true

/-- Modelled from the spec (for claim C3): the compile-failure ("no match")
causes of §7 of the spec, one Boolean condition per command family — empty
input, unknown command family, unknown sub-verb of a closed sub-verb
family, missing required positional argument, and (when `numFail` is set)
a required integer/float argument failing to parse. -/
def noMatchSpec (numFail : Bool) (args : List String) : Bool :=
  match args with
  | [] => true
  | cmd :: rest =>
    match cmd with
    | "open" | "goto" | "navigate" => decide (rest.length < 1)
    | "back" | "forward" | "reload" => false
    | "click" | "dblclick" | "hover" | "focus" | "check" | "uncheck" =>
      decide (rest.length < 1)
    | "fill" | "type" | "upload" => decide (rest.length < 1)
    | "select" | "drag" => decide (rest.length < 2)
    | "press" | "key" | "keydown" | "keyup" => decide (rest.length < 1)
    | "scroll" => false
    | "scrollintoview" | "scrollinto" => decide (rest.length < 1)
    | "wait" => decide (rest.length < 1)
    | "screenshot" => false
    | "pdf" => decide (rest.length < 1)
    | "snapshot" => false
    | "eval" => false
    | "close" | "quit" | "exit" => false
    | "get" =>
      match rest[0]? with
      | some "text" | some "html" | some "value" | some "count" | some "box" =>
        decide (rest.length < 2)
      | some "attr" => decide (rest.length < 3)
      | some "url" | some "title" => false
      | _ => true
    | "is" =>
      match rest[0]? with
      | some "visible" | some "enabled" | some "checked" => decide (rest.length < 2)
      | _ => true
    | "find" => noMatchFind numFail rest
    | "mouse" =>
      match rest[0]? with
      | some "move" =>
        decide (rest.length < 3) ||
          (numFail && (((rest[1]?).bind parseI32).isNone || ((rest[2]?).bind parseI32).isNone))
      | some "down" | some "up" | some "wheel" => false
      | _ => true
    | "set" => noMatchSet numFail rest
    | "network" =>
      match rest[0]? with
      | some "route" => decide (rest.length < 2)
      | some "unroute" | some "requests" => false
      | _ => true
    | "storage" =>
      match rest[0]? with
      | some "local" | some "session" => false
      | _ => true
    | "cookies" => ((rest[0]?).getD "get") == "set" && decide (rest.length < 3)
    | "tab" => false
    | "window" =>
      match rest[0]? with
      | some "new" => false
      | _ => true
    | "frame" => decide (rest.length < 1)
    | "dialog" =>
      match rest[0]? with
      | some "accept" | some "dismiss" => false
      | _ => true
    | "trace" =>
      match rest[0]? with
      | some "start" | some "stop" => false
      | _ => true
    | "console" | "errors" => false
    | "highlight" => decide (rest.length < 1)
    | "state" =>
      match rest[0]? with
      | some "save" | some "load" => decide (rest.length < 2)
      | _ => true
    | _ => true

theorem sliceFrom_eq_ok {l : List String} {i : Nat} (h : i ≤ l.length) :
    sliceFrom l i = .ok (l.drop i) := by
  simp [sliceFrom, h]

/-- The guarded fill-value computation of `parse_find` (`if rest.len() > k
{ Some(rest[k..].join(" ")) } else { None }`) never panics: the length
guard implies the slice is in range. -/
theorem guardedFill (l : List String) (k : Nat) :
    (if k < l.length then (sliceFrom l k).map (fun t => some (joinSp t)) else Except.ok none) =
    Except.ok (if k < l.length then some (joinSp (l.drop k)) else none) := by
  split
  · rw [sliceFrom_eq_ok (by omega)]; rfl
  · rfl

theorem exc_bind_ok {α β : Type} (x : α) (f : α → Except String β) :
    (Except.ok x : Except String α).bind f = f x := rfl

theorem exc_map_ok {α β : Type} (x : α) (f : α → β) :
    (Except.ok x : Except String α).map f = Except.ok (f x) := rfl

theorem lt_length_of_getElem {α : Type} {l : List α} {i : Nat} {a : α}
    (h : l[i]? = some a) : i < l.length := by
  by_contra hc
  rw [List.getElem?_eq_none (by omega)] at h
  exact Option.noConfusion h

theorem getElem_none_length {α : Type} {l : List α} {i : Nat}
    (h : l[i]? = none) : l.length ≤ i := by
  by_contra hc
  rw [List.getElem?_eq_getElem (by omega)] at h
  exact Option.noConfusion h

theorem lt_length_of_bind {α β : Type} {l : List α} {i : Nat} {f : α → Option β} {b : β}
    (h : (l[i]?).bind f = some b) : i < l.length := by
  cases hx : l[i]? with
  | none => rw [hx] at h; exact Option.noConfusion h
  | some a => exact lt_length_of_getElem hx

theorem bind_none_split {α β : Type} {l : List α} {i : Nat} {f : α → Option β}
    (h : (l[i]?).bind f = none) : l.length ≤ i ∨ ∀ a, l[i]? = some a → f a = none := by
  cases hx : l[i]? with
  | none => exact Or.inl (getElem_none_length hx)
  | some a =>
    right
    intro b hb
    have h2 : f a = none := by
      have h3 : (some a).bind f = none := hx ▸ h
      simpa using h3
    have hab : a = b := Option.some.inj hb
    exact hab ▸ h2

/-- A command with two required coerced arguments at positions 1 and 2
fails exactly when an argument is missing or fails to coerce. -/
theorem two_req_none {α β γ : Type} {l : List α} {f : α → Option β} {g : α → Option γ}
    (h : ∀ b c, (l[1]?).bind f = some b → ¬(l[2]?).bind g = some c) :
    l.length < 3 ∨ (∀ a, l[1]? = some a → f a = none) ∨ (∀ a, l[2]? = some a → g a = none) := by
  cases hb1 : (l[1]?).bind f with
  | none =>
    rcases bind_none_split hb1 with hl | hp
    · exact Or.inl (by omega)
    · exact Or.inr (Or.inl hp)
  | some b =>
    have hb2 : (l[2]?).bind g = none := by
      cases hb2x : (l[2]?).bind g with
      | none => rfl
      | some c => exact absurd hb2x (h b c hb1)
    rcases bind_none_split hb2 with hl | hp
    · exact Or.inl (by omega)
    · exact Or.inr (Or.inr hp)

/-- A command with two required string arguments at positions 1 and 2
fails exactly when one is missing. -/
theorem two_req_none_str {l : List String}
    (h : ∀ u p : String, l[1]? = some u → ¬l[2]? = some p) : l.length < 3 := by
  cases hx : l[1]? with
  | none => have := getElem_none_length hx; omega
  | some u =>
    cases hy : l[2]? with
    | none => have := getElem_none_length hy; omega
    | some p => exact absurd hy (h u p hx)

set_option maxHeartbeats 2000000 in
/-- `parse_find` never panics: every branch yields a recognized outcome. -/
theorem parse_find_ok (rest : List String) : ∃ r, parse_find rest = .ok r := by
  unfold parse_find
  simp only [guardedFill, exc_bind_ok, exc_map_ok]
  repeat' split
  all_goals exact ⟨_, rfl⟩

set_option maxHeartbeats 2000000 in
/-- `parse_find` produces the no-match outcome exactly in the cases
enumerated by `noMatchFind`. -/
theorem parse_find_none_iff (rest : List String) :
    (parse_find rest = .ok none) ↔ noMatchFind true rest = true := by
  unfold parse_find noMatchFind
  simp only [guardedFill, exc_bind_ok, exc_map_ok]
  repeat' split
  all_goals simp_all
  all_goals first
    | exact lt_length_of_getElem (by assumption)
    | exact lt_length_of_bind (by assumption)
    | omega

set_option maxHeartbeats 2000000 in
/-- `parse_set` never panics. -/
theorem parse_set_ok (rest : List String) : ∃ r, parse_set rest = .ok r := by
  unfold parse_set
  repeat' split
  all_goals exact ⟨_, rfl⟩

set_option maxHeartbeats 2000000 in
/-- `parse_set` produces the no-match outcome exactly in the cases
enumerated by `noMatchSet`. -/
theorem parse_set_none_iff (rest : List String) :
    (parse_set rest = .ok none) ↔ noMatchSet true rest = true := by
  unfold parse_set noMatchSet
  repeat' split
  all_goals simp_all
  all_goals first
    | exact lt_length_of_getElem (by assumption)
    | exact lt_length_of_bind (by assumption)
    | exact two_req_none (by assumption)
    | exact two_req_none_str (by assumption)
    | omega

theorem unwrap_map_ok {α β : Type} {o : Option α} (h : o.isSome = true) (f : α → β) :
    ∃ r, (unwrapE o).map f = Except.ok r := by
  cases o
  · cases h
  · exact ⟨_, rfl⟩

theorem pair_req_lt (i j : Nat) {l : List String} (hij : i ≤ j)
    (h : ∀ u p : String, l[i]? = some u → ¬l[j]? = some p) : l.length < j + 1 := by
  cases hx : l[i]? with
  | none => have := getElem_none_length hx; omega
  | some u =>
    cases hy : l[j]? with
    | none => have := getElem_none_length hy; omega
    | some p => exact absurd hy (h u p hx)

set_option maxHeartbeats 4000000 in
/-- `parse_command` never reaches a panic: the checked accesses guarding
each raw slice (`&rest[1..]`) and each `unwrap` make the error branches
unreachable, so every input yields `.ok` (either a message or no-match). -/
theorem parse_command_ok (args : List String) (fl : Flags) :
    ∃ r, parse_command args fl = .ok r := by
  unfold parse_command
  repeat' split
  all_goals first
    | exact ⟨_, rfl⟩
    | exact parse_find_ok _
    | exact parse_set_ok _
    | exact unwrap_map_ok (by assumption) _
    | (rw [sliceFrom_eq_ok (lt_length_of_getElem (by assumption))]; exact ⟨_, rfl⟩)

set_option maxHeartbeats 4000000 in
/-- `parse_command` produces the no-match outcome exactly in the cases
enumerated by `noMatchSpec` (with numeric-coercion failures counted). -/
theorem parse_command_none_iff (args : List String) (fl : Flags) :
    (parse_command args fl = .ok none) ↔ noMatchSpec true args = true := by
  unfold parse_command
  repeat' split
  all_goals try rw [sliceFrom_eq_ok (lt_length_of_getElem (by assumption))]
  all_goals simp only [noMatchSpec]
  all_goals try exact parse_find_none_iff _
  all_goals try exact parse_set_none_iff _
  all_goals simp_all [exc_map_ok]
  all_goals try first
    | exact two_req_none (by assumption)
    | exact lt_length_of_bind (by assumption)
    | exact pair_req_lt 0 1 (by omega) (by assumption)
    | exact pair_req_lt 1 2 (by omega) (by assumption)
    | exact lt_length_of_getElem (by assumption)
    | exact List.ne_nil_of_length_pos (lt_length_of_getElem (by assumption))
    | (have hlen := getElem_none_length (by assumption); omega)
    | (have hlen := lt_length_of_getElem (by assumption); omega)
    | omega
    | (rename_i hor
       rcases hor with hc | hc <;> subst hc <;> rfl)
    | (obtain ⟨n2, hn2⟩ := Option.isSome_iff_exists.mp (by assumption)
       rw [hn2]
       simp [unwrapE, exc_map_ok]
       try exact List.ne_nil_of_length_pos (lt_length_of_getElem (by assumption)))

/-- Dispatch bridge: the `find` family delegates to `parse_find`. -/
theorem parse_command_find_eq (rest : List String) (fl : Flags) :
    parse_command ("find" :: rest) fl = parse_find rest := by
  with_unfolding_all rfl

/-- Dispatch bridge: the `set` family delegates to `parse_set`. -/
theorem parse_command_set_eq (rest : List String) (fl : Flags) :
    parse_command ("set" :: rest) fl = parse_set rest := by
  with_unfolding_all rfl

/-- Dispatch bridge: the `open` arm of `parse_command`. -/
theorem parse_command_open_eq (rest : List String) (fl : Flags) :
    parse_command ("open" :: rest) fl =
    (match rest[0]? with
     | none => .ok none
     | some u => .ok (some (.navigate (if startsWithS u "http" then u else "https://" ++ u)))) := by
  with_unfolding_all rfl

/-- Dispatch bridge: the `goto` synonym takes the same arm as `open`. -/
theorem parse_command_goto_eq (rest : List String) (fl : Flags) :
    parse_command ("goto" :: rest) fl =
    (match rest[0]? with
     | none => .ok none
     | some u => .ok (some (.navigate (if startsWithS u "http" then u else "https://" ++ u)))) := by
  with_unfolding_all rfl

/-- Dispatch bridge: the `navigate` synonym takes the same arm as `open`. -/
theorem parse_command_navigate_eq (rest : List String) (fl : Flags) :
    parse_command ("navigate" :: rest) fl =
    (match rest[0]? with
     | none => .ok none
     | some u => .ok (some (.navigate (if startsWithS u "http" then u else "https://" ++ u)))) := by
  with_unfolding_all rfl

/-- Dispatch bridge: the `wait` arm of `parse_command`. -/
theorem parse_command_wait_eq (rest : List String) (fl : Flags) :
    parse_command ("wait" :: rest) fl =
    (match rest[0]? with
     | none => .ok none
     | some arg =>
       if (parseU64 arg).isSome then (unwrapE (parseU64 arg)).map fun n => some (.waitTimeout n)
       else .ok (some (.waitSelector arg))) := by
  with_unfolding_all rfl

/-- Dispatch bridge: the `snapshot` arm of `parse_command`. -/
theorem parse_command_snapshot_eq (rest : List String) (fl : Flags) :
    parse_command ("snapshot" :: rest) fl =
      .ok (some (.snapshot (snapshotScan rest ⟨none, none, none, none⟩).interactive
        (snapshotScan rest ⟨none, none, none, none⟩).compact
        (snapshotScan rest ⟨none, none, none, none⟩).maxDepth
        (snapshotScan rest ⟨none, none, none, none⟩).selector)) := by
  with_unfolding_all rfl

/-- `clean_args` keeps tokens in their original relative order: its
output is a sublist of its input. -/
theorem cleanGo_sublist (b : Bool) (l : List String) : (cleanGo b l).Sublist l := by
  induction l generalizing b with
  | nil => cases b <;> simp [cleanGo]
  | cons a as ih =>
    cases b with
    | true => exact (ih false).cons a
    | false =>
      show (if a = "--session" then cleanGo true as
        else if startsWithS a "--" then cleanGo false as
        else if a = "-f" then cleanGo false as
        else a :: cleanGo false as).Sublist (a :: as)
      split
      · exact (ih true).cons a
      · split
        · exact (ih false).cons a
        · split
          · exact (ih false).cons a
          · exact (ih false).cons₂ a

/-- Every token kept by `clean_args` is neither `--`-prefixed nor the
short flag `-f`. -/
theorem cleanGo_mem (b : Bool) (l : List String) (t : String) (ht : t ∈ cleanGo b l) :
    startsWithS t "--" = false ∧ t ≠ "-f" := by
  induction l generalizing b with
  | nil => cases b <;> simp [cleanGo] at ht
  | cons a as ih =>
    cases b with
    | true => exact ih false ht
    | false =>
      simp only [cleanGo] at ht
      split at ht
      · exact ih true ht
      · split at ht
        · exact ih false ht
        · split at ht
          · exact ih false ht
          · rcases List.mem_cons.mp ht with h1 | h1
            · subst h1
              constructor
              · rename_i hw hf
                exact Bool.not_eq_true _ ▸ by simpa using hw
              · rename_i hw hf
                exact hf
            · exact ih false h1

/-- Inserting one `--`-prefixed option token (other than `--session`)
anywhere outside a `--session` value slot does not change the stripped
token list. -/
theorem cleanGo_insert_opt (b : Bool) (l1 l2 : List String) (x : String)
    (hx : startsWithS x "--" = true) (hxs : x ≠ "--session")
    (h : skipAfter b l1 = false) :
    cleanGo b (l1 ++ x :: l2) = cleanGo b (l1 ++ l2) := by
  induction l1 generalizing b with
  | nil =>
    cases b with
    | true => simp [skipAfter] at h
    | false =>
      simp only [List.nil_append]
      simp [cleanGo, hxs, hx]
  | cons a as ih =>
    cases b with
    | true =>
      simp only [List.cons_append, cleanGo]
      exact ih false h
    | false =>
      simp only [List.cons_append, cleanGo]
      by_cases hs : a = "--session"
      · rw [if_pos hs, if_pos hs]
        refine ih true ?_
        have : skipAfter false (a :: as) = skipAfter true as := by
          simp [skipAfter, hs]
        rw [← this]
        exact h
      · rw [if_neg hs, if_neg hs]
        have h2 : skipAfter false as = false := by
          have : skipAfter false (a :: as) = skipAfter false as := by
            simp [skipAfter, hs]
          rw [← this]
          exact h
        by_cases hw : startsWithS a "--" = true
        · rw [if_pos hw, if_pos hw]
          exact ih false h2
        · rw [if_neg hw, if_neg hw]
          by_cases hf : a = "-f"
          · rw [if_pos hf, if_pos hf]
            exact ih false h2
          · rw [if_neg hf, if_neg hf]
            exact congrArg (List.cons a) (ih false h2)

/-- Inserting a `--session <value>` pair anywhere outside a `--session`
value slot does not change the stripped token list. -/
theorem cleanGo_insert_session (b : Bool) (l1 l2 : List String) (x : String)
    (h : skipAfter b l1 = false) :
    cleanGo b (l1 ++ "--session" :: x :: l2) = cleanGo b (l1 ++ l2) := by
  induction l1 generalizing b with
  | nil =>
    cases b with
    | true => simp [skipAfter] at h
    | false =>
      simp only [List.nil_append]
      simp [cleanGo]
  | cons a as ih =>
    cases b with
    | true =>
      simp only [List.cons_append, cleanGo]
      exact ih false h
    | false =>
      simp only [List.cons_append, cleanGo]
      by_cases hs : a = "--session"
      · rw [if_pos hs, if_pos hs]
        refine ih true ?_
        have : skipAfter false (a :: as) = skipAfter true as := by
          simp [skipAfter, hs]
        rw [← this]
        exact h
      · rw [if_neg hs, if_neg hs]
        have h2 : skipAfter false as = false := by
          have : skipAfter false (a :: as) = skipAfter false as := by
            simp [skipAfter, hs]
          rw [← this]
          exact h
        by_cases hw : startsWithS a "--" = true
        · rw [if_pos hw, if_pos hw]
          exact ih false h2
        · rw [if_neg hw, if_neg hw]
          by_cases hf : a = "-f"
          · rw [if_pos hf, if_pos hf]
            exact ih false h2
          · rw [if_neg hf, if_neg hf]
            exact congrArg (List.cons a) (ih false h2)

/-- C7: `clean_args` removes exactly the option tokens and keeps every
other token in its original relative order: the output is a sublist of
the input in which no `--`-prefixed token and no `-f` survives, and the
recursion equations characterize the stripping completely — `--session`
is dropped together with its immediately following token, any other
`--`-prefixed token and the flag `-f` are dropped alone, and every other
token is retained in front of the stripped tail; consequently inserting
`--json` or a `--session <value>` pair at any position that is not
itself a `--session` value slot changes neither the stripped list nor
the result of compiling it. -/
theorem c7_strip (l l1 l2 rest : List String) (x a : String) (fl : Flags)
    (h : skipAfter false l1 = false) :
    (clean_args l).Sublist l ∧
    (∀ t ∈ clean_args l, startsWithS t "--" = false ∧ t ≠ "-f") ∧
    clean_args [] = [] ∧
    clean_args ("--session" :: x :: rest) = clean_args rest ∧
    clean_args ["--session"] = [] ∧
    (startsWithS a "--" = true → a ≠ "--session" →
      clean_args (a :: rest) = clean_args rest) ∧
    clean_args ("-f" :: rest) = clean_args rest ∧
    (startsWithS a "--" = false → a ≠ "-f" →
      clean_args (a :: rest) = a :: clean_args rest) ∧
    clean_args (l1 ++ "--json" :: l2) = clean_args (l1 ++ l2) ∧
    clean_args (l1 ++ "--session" :: x :: l2) = clean_args (l1 ++ l2) ∧
    parse_command (clean_args (l1 ++ "--json" :: l2)) fl =
      parse_command (clean_args (l1 ++ l2)) fl ∧
    parse_command (clean_args (l1 ++ "--session" :: x :: l2)) fl =
      parse_command (clean_args (l1 ++ l2)) fl := by
  have hj : clean_args (l1 ++ "--json" :: l2) = clean_args (l1 ++ l2) :=
    cleanGo_insert_opt false l1 l2 "--json" (by decide) (by decide) h
  have hsess : clean_args (l1 ++ "--session" :: x :: l2) = clean_args (l1 ++ l2) :=
    cleanGo_insert_session false l1 l2 x h
  refine ⟨cleanGo_sublist false l, fun t ht => cleanGo_mem false l t ht, rfl, ?_, rfl,
    ?_, ?_, ?_, hj, hsess, by rw [hj], by rw [hsess]⟩
  · simp [clean_args, cleanGo]
  · intro hw hs
    simp [clean_args, cleanGo, hs, hw]
  · simp [clean_args, cleanGo]
  · intro hw hf
    have hs : a ≠ "--session" := by
      intro he
      rw [he] at hw
      exact absurd hw (by decide)
    simp [clean_args, cleanGo, hs, hf, hw]

/-- C7, witness: moving `--json` or `--session s1` around concrete lists
leaves the stripped list unchanged, and the guarded recursion equations
hold at concrete tokens: the non-option token `"click"` is retained and
the option token `"--json"` is dropped. -/
theorem c7_witness :
    clean_args (["click"] ++ "--json" :: [".btn"]) = clean_args (["click"] ++ [".btn"]) ∧
    clean_args (["click"] ++ "--session" :: "s1" :: [".btn"]) =
      clean_args (["click"] ++ [".btn"]) ∧
    (clean_args ["--json", "click", ".btn"]).Sublist ["--json", "click", ".btn"] ∧
    clean_args ("click" :: ["--json", ".btn"]) = "click" :: clean_args ["--json", ".btn"] ∧
    clean_args ("--json" :: [".btn"]) = clean_args [".btn"] := by
  have h := c7_strip ["--json", "click", ".btn"] ["click"] [".btn"] ["--json", ".btn"]
    "s1" "click" defaultFlags (by decide)
  have h2 := c7_strip [] [] [] [".btn"] "s1" "--json" defaultFlags (by decide)
  exact ⟨h.2.2.2.2.2.2.2.2.1, h.2.2.2.2.2.2.2.2.2.1, h.1,
    h.2.2.2.2.2.2.2.1 (by decide) (by decide),
    h2.2.2.2.2.2.1 (by decide) (by decide)⟩

/-! ## Claim theorems -/

/-- Extracts the sub-action field of a locator message, where one exists
(used to compare the compiled sub-action against the spec's prediction). -/
def subactionOf : Payload → Option String
  | .getbyrole _ sub _ _ _ => some sub
  | .getbytext _ sub _ => some sub
  | .getbylabel _ sub _ _ => some sub
  | .getbyplaceholder _ sub _ _ => some sub
  | .getbyalttext _ sub _ => some sub
  | .getbytitle _ sub _ => some sub
  | .getbytestid _ sub _ => some sub
  | .nth _ _ sub _ => some sub
  | _ => none

/-- C1, counterexample: compiling
`find role button --name Submit --exact` yields sub-action `"--name"`,
not the default `"click"` claimed by the spec: the flag tokens are found
by position-independent scans but still occupy the positional
sub-action / fill-value slots. -/
theorem c1_counterexample :
    (parse_command ["find", "role", "button", "--name", "Submit", "--exact"]
        defaultFlags).map (Option.map subactionOf) = .ok (some (some "--name")) ∧
    "--name" ≠ "click" :=
  ⟨rfl, by decide⟩

/-- C1 (amended): compiling
`["find","role","button","--name","Submit","--exact"]` produces action
`getbyrole` with role `"button"`, name `"Submit"` (consumed by the
position-independent `--name` scan) and exact `true` (the `--exact`
scan); but the positional sub-action slot holds the token `"--name"`
(not the default `"click"`) and the fill value is `"Submit --exact"`,
because the flag tokens also occupy the positional slots. -/
theorem c1_amended :
    parse_command ["find", "role", "button", "--name", "Submit", "--exact"] defaultFlags =
      .ok (some (.getbyrole "button" "--name" (some "Submit --exact") (some "Submit") true)) :=
  rfl

/-- C2, counterexample: with the selector-first order claimed by the spec
(`["find","nth","div","2"]`, selector `"div"`, integer index `"2"`), the
compiler returns no match rather than an index-based message: the code
parses the second token (`"div"` here) as the integer index. -/
theorem c2_counterexample :
    parseI32 "2" = some 2 ∧
    parse_command ["find", "nth", "div", "2"] defaultFlags = .ok none :=
  ⟨by decide, rfl⟩

set_option maxHeartbeats 1000000 in
/-- C2 (amended): the `find nth` argument order is index first, then
selector: `["find","nth",I,S,...]` with `I` parsing as an integer yields
an `nth` message with index `I` and selector `S`, sub-action at the
fifth token (default `"click"`) and later tokens joined as fill value;
a non-integer index token or a missing selector yields no match. -/
theorem c2_amended (fl : Flags) :
    (∀ (I S : String) (n : Int), parseI32 I = some n →
        parse_command ["find", "nth", I, S] fl = .ok (some (.nth S n "click" none))) ∧
    (∀ (I S sub : String) (fm : List String) (n : Int), parseI32 I = some n →
        parse_command (["find", "nth", I, S, sub] ++ fm) fl =
          .ok (some (.nth S n sub (if fm.isEmpty then none else some (joinSp fm))))) ∧
    (∀ I S : String, parseI32 I = none → parse_command ["find", "nth", I, S] fl = .ok none) ∧
    (∀ I : String, parse_command ["find", "nth", I] fl = .ok none) := by
  refine ⟨?_, ?_, ?_, ?_⟩
  · intro I S n h
    rw [parse_command_find_eq]
    simp [parse_find, h, sliceFrom, exc_bind_ok, exc_map_ok]
  · intro I S sub fm n h
    simp only [List.cons_append, List.nil_append]
    rw [parse_command_find_eq]
    unfold parse_find
    simp only [guardedFill, exc_bind_ok, exc_map_ok]
    cases fm with
    | nil => simp [h, joinSp]
    | cons f fs => simp [h, joinSp, List.getElem?_append]
  · intro I S h
    rw [parse_command_find_eq]
    simp [parse_find, h, sliceFrom, exc_bind_ok, exc_map_ok]
  · intro I
    rw [parse_command_find_eq]
    simp only [parse_find]
    simp [sliceFrom, exc_bind_ok, exc_map_ok]
    cases parseI32 I <;> rfl

/-- C2, witness for the amended theorem at concrete inputs. -/
theorem c2_witness :
    parse_command ["find", "nth", "2", "div"] defaultFlags =
      .ok (some (.nth "div" 2 "click" none)) ∧
    parse_command ["find", "nth", "x", "div"] defaultFlags = .ok none :=
  ⟨(c2_amended defaultFlags).1 "2" "div" 2 (by decide),
   (c2_amended defaultFlags).2.2.1 "x" "div" (by decide)⟩

/-- C3, counterexample: `["mouse","move","a","b"]` compiles to no match,
although none of the claim's four causes applies (the list is nonempty,
`mouse` is a known family, `move` a known sub-verb, and both required
positional arguments are present, as `noMatchSpec false` records): a
required integer argument that fails to parse is a fifth no-match cause
the claim omits. -/
theorem c3_counterexample :
    parse_command ["mouse", "move", "a", "b"] defaultFlags = .ok none ∧
    noMatchSpec false ["mouse", "move", "a", "b"] = false :=
  ⟨rfl, by decide⟩

/-- C3 (amended): `parse_command` returns the no-match outcome — never a
crash and never a partial message — exactly when the token list is empty,
the first token matches no known family, a closed sub-verb family gets an
unknown sub-verb, a required positional argument is missing, or a
required numeric argument fails to parse (`noMatchSpec true`); in
particular `["fill"]` and `["select","sel"]` yield no match. -/
theorem c3_amended (args : List String) (fl : Flags) :
    ((parse_command args fl = .ok none) ↔ noMatchSpec true args = true) ∧
    parse_command ["fill"] fl = .ok none ∧
    parse_command ["select", "sel"] fl = .ok none ∧
    parse_command [] fl = .ok none :=
  ⟨parse_command_none_iff args fl, rfl, rfl, rfl⟩

/-- C4: the `snapshot` family scans its arguments left to right
(`-i`/`--interactive`, `-c`/`--compact`, `-d <n>`/`--depth <n>` consuming
a following valid integer — a non-integer depth token is not consumed and
leaves maxDepth unset — `-s <sel>`/`--selector <sel>` consuming the
following token), skips unrecognized tokens, never turns the command into
no match, and on `snapshot -d 3 -s div.main -i` yields maxDepth 3,
selector `"div.main"`, interactive true, compact absent. -/
theorem c4_snapshot (rest ts : List String) (st : SnapOpts) (fl : Flags) :
    parse_command ["snapshot", "-d", "3", "-s", "div.main", "-i"] fl =
      .ok (some (.snapshot (some true) none (some 3) (some "div.main"))) ∧
    parse_command ["snapshot", "-d", "abc"] fl =
      .ok (some (.snapshot none none none none)) ∧
    (∃ o : SnapOpts, parse_command ("snapshot" :: rest) fl =
        .ok (some (.snapshot o.interactive o.compact o.maxDepth o.selector))) ∧
    snapshotScan ("-i" :: ts) st = snapshotScan ts { st with interactive := some true } ∧
    snapshotScan ("-c" :: ts) st = snapshotScan ts { st with compact := some true } ∧
    (∀ d : String, parseI32 d = none →
        snapshotScan ("-d" :: d :: ts) st = snapshotScan (d :: ts) st) ∧
    (∀ (d : String) (n : Int), parseI32 d = some n →
        snapshotScan ("-d" :: d :: ts) st = snapshotScan ts { st with maxDepth := some n }) ∧
    (∀ s : String,
        snapshotScan ("-s" :: s :: ts) st = snapshotScan ts { st with selector := some s }) ∧
    (∀ t : String, t ≠ "-i" → t ≠ "--interactive" → t ≠ "-c" → t ≠ "--compact" →
        t ≠ "-d" → t ≠ "--depth" → t ≠ "-s" → t ≠ "--selector" →
        snapshotScan (t :: ts) st = snapshotScan ts st) := by
  refine ⟨rfl, rfl, ?_, ?_, ?_, ?_, ?_, ?_, ?_⟩
  · exact ⟨snapshotScan rest ⟨none, none, none, none⟩, parse_command_snapshot_eq rest fl⟩
  · with_unfolding_all rfl
  · with_unfolding_all rfl
  · intro d h
    simp [snapshotScan, h]
  · intro d n h
    simp [snapshotScan, h]
  · intro s
    with_unfolding_all rfl
  · intro t h1 h2 h3 h4 h5 h6 h7 h8
    conv_lhs => unfold snapshotScan
    split <;> simp_all

/-- C4, witness for the hypothesis-guarded conjuncts (depth with and
without a valid integer, and an unrecognized token) at concrete inputs. -/
theorem c4_witness :
    snapshotScan ["-d", "abc"] ⟨none, none, none, none⟩ =
      snapshotScan ["abc"] ⟨none, none, none, none⟩ ∧
    snapshotScan ["-d", "3"] ⟨none, none, none, none⟩ =
      snapshotScan [] ⟨none, none, some 3, none⟩ ∧
    snapshotScan ["xyz"] ⟨none, none, none, none⟩ =
      snapshotScan [] ⟨none, none, none, none⟩ :=
  ⟨(c4_snapshot [] [] ⟨none, none, none, none⟩ defaultFlags).2.2.2.2.2.1 "abc" (by decide),
   (c4_snapshot [] [] ⟨none, none, none, none⟩ defaultFlags).2.2.2.2.2.2.1 "3" 3 (by decide),
   (c4_snapshot [] [] ⟨none, none, none, none⟩ defaultFlags).2.2.2.2.2.2.2.2 "xyz"
     (by decide) (by decide) (by decide) (by decide)
     (by decide) (by decide) (by decide) (by decide)⟩

/-- C5: `open`, `goto` and `navigate` all produce a `navigate` message
with one required url argument; a url not beginning with `http` gets
`https://` prepended, any other url passes through unchanged; with no
argument the result is no match. -/
theorem c5_navigate (c url : String) (more : List String) (fl : Flags)
    (hc : c = "open" ∨ c = "goto" ∨ c = "navigate") :
    parse_command (c :: url :: more) fl =
      .ok (some (.navigate (if startsWithS url "http" then url else "https://" ++ url))) ∧
    parse_command [c] fl = .ok none := by
  rcases hc with h | h | h <;> subst h
  · rw [parse_command_open_eq, parse_command_open_eq]
    constructor <;> simp
  · rw [parse_command_goto_eq, parse_command_goto_eq]
    constructor <;> simp
  · rw [parse_command_navigate_eq, parse_command_navigate_eq]
    constructor <;> simp

/-- C5, witness: `open example.com` prepends `https://`; `goto http://x`
passes through; bare `navigate` is no match. -/
theorem c5_witness :
    parse_command ["open", "example.com"] defaultFlags =
      .ok (some (.navigate "https://example.com")) ∧
    parse_command ["goto", "http://x"] defaultFlags = .ok (some (.navigate "http://x")) ∧
    parse_command ["navigate"] defaultFlags = .ok none := by
  have h1 := (c5_navigate "open" "example.com" [] defaultFlags (Or.inl rfl)).1
  have h2 := (c5_navigate "goto" "http://x" [] defaultFlags (Or.inr (Or.inl rfl))).1
  have h3 := (c5_navigate "navigate" "url" [] defaultFlags (Or.inr (Or.inr rfl))).2
  have e1 : startsWithS "example.com" "http" = false := by decide
  have e2 : startsWithS "http://x" "http" = true := by decide
  rw [e1] at h1
  rw [e2] at h2
  exact ⟨by simpa using h1, by simpa using h2, h3⟩

/-- C6, counterexample: an all-digits wait-selector is not unreachable:
an all-digits token whose value exceeds the `u64` range fails the integer
parse, so `wait 99999999999999999999999` compiles to a wait-for-selector
message whose selector is all digits. -/
theorem c6_counterexample :
    parse_command ["wait", "99999999999999999999999"] defaultFlags =
      .ok (some (.waitSelector "99999999999999999999999")) ∧
    allDigits "99999999999999999999999".toList = true :=
  ⟨rfl, by decide⟩

/-- C6 (amended): `wait` tries its single argument as an unsigned integer
(`u64`) first (timeout); on parse failure the same token becomes a
selector; zero arguments yield no match; a selector outcome implies the
token failed the `u64` parse, so an all-digits wait-selector within the
`u64` range is unreachable (an all-digits token overflowing `u64` still
becomes a selector). -/
theorem c6_wait (s : String) (fl : Flags) :
    (∀ n : Nat, parseU64 s = some n →
        parse_command ["wait", s] fl = .ok (some (.waitTimeout n))) ∧
    (parseU64 s = none → parse_command ["wait", s] fl = .ok (some (.waitSelector s))) ∧
    parse_command ["wait"] fl = .ok none ∧
    (parse_command ["wait", s] fl = .ok (some (.waitSelector s)) → parseU64 s = none) := by
  refine ⟨?_, ?_, rfl, ?_⟩
  · intro n h
    rw [parse_command_wait_eq]
    simp [h, unwrapE, exc_map_ok]
  · intro h
    rw [parse_command_wait_eq]
    simp [h]
  · intro h
    cases hp : parseU64 s with
    | none => rfl
    | some n =>
      rw [parse_command_wait_eq] at h
      simp [hp, unwrapE, exc_map_ok] at h

/-- C6, witness: `wait 500` takes the integer branch, `wait .loaded` the
selector branch. -/
theorem c6_witness :
    parse_command ["wait", "500"] defaultFlags = .ok (some (.waitTimeout 500)) ∧
    parse_command ["wait", ".loaded"] defaultFlags = .ok (some (.waitSelector ".loaded")) :=
  ⟨(c6_wait "500" defaultFlags).1 500 (by decide),
   (c6_wait ".loaded" defaultFlags).2.1 (by decide)⟩

/-- C8: for `set offline`, a following token makes the offline field true
unless it is exactly `"off"` or `"false"` (case-sensitive), so `"maybe"`
and `"OFF"` both give true; with no following token offline defaults to
true. -/
theorem c8_offline (s : String) (fl : Flags) :
    parse_command ["set", "offline"] fl = .ok (some (.offline true)) ∧
    parse_command ["set", "offline", s] fl =
      .ok (some (.offline (!(s == "off") && !(s == "false")))) ∧
    parse_command ["set", "offline", "off"] fl = .ok (some (.offline false)) ∧
    parse_command ["set", "offline", "false"] fl = .ok (some (.offline false)) ∧
    parse_command ["set", "offline", "maybe"] fl = .ok (some (.offline true)) ∧
    parse_command ["set", "offline", "OFF"] fl = .ok (some (.offline true)) := by
  rw [parse_command_set_eq, parse_command_set_eq, parse_command_set_eq, parse_command_set_eq,
    parse_command_set_eq, parse_command_set_eq]
  exact ⟨rfl, by with_unfolding_all rfl, rfl, rfl, rfl, rfl⟩

/-- C9: compilation is deterministic up to the id: for the same token
list and flags record, two compilations with different generated ids
agree on the no-match outcome and on every payload field, differing only
in the attached id. -/
theorem c9_id_independent (idA idB : String) (args : List String) (fl : Flags) :
    (parse_command_msg idA args fl).map (Option.map Msg.payload) =
      (parse_command_msg idB args fl).map (Option.map Msg.payload) ∧
    ((parse_command_msg idA args fl = .ok none) ↔ (parse_command_msg idB args fl = .ok none)) := by
  constructor
  · unfold parse_command_msg
    cases parse_command args fl with
    | error e => rfl
    | ok o => cases o <;> rfl
  · unfold parse_command_msg
    cases parse_command args fl with
    | error e => simp [Except.map]
    | ok o => cases o <;> simp [Except.map]

/-- C10: `parse_command` is total over its public interface: every token
list and flags record yields `.ok` (a message or the no-match `none`) and
never the `.error` outcome that models a Rust panic (an out-of-bounds
`rest[i..]` slice or a failed unwrap). -/
theorem c10_total (args : List String) (fl : Flags) :
    (∃ r, parse_command args fl = .ok r) ∧
    ∀ e : String, parse_command args fl ≠ .error e := by
  obtain ⟨r, hr⟩ := parse_command_ok args fl
  refine ⟨⟨r, hr⟩, fun e hc => ?_⟩
  rw [hr] at hc
  exact Except.noConfusion hc
